import Mathlib

/-!
# TraceVault — verification of the evidence-analysis job contract

Shallow embedding of the TraceVault repository: the browser client
(`frontend/src/app/page.js`, `frontend/src/components/UploadForm.jsx`,
`frontend/src/components/ResultsViewer.jsx`) is embedded directly from the
source; the backend pipeline (Job Registry, Pipeline Orchestrator, Stage
Executors, OSINT fan-out, status endpoint) is not present under `src/`
(only the Dockerfile and start script reference it), so those parts are
modelled from the specification and marked `Modelled from the spec:` in
their doc comments.

Numeric similarity/probability scores are modelled as `Rat`; the claims
about them concern only ordering and equality.
-/

namespace TraceVault

/-! ## Data model (spec §3 shapes, as consumed by the client) -/

/-- One OSINT match nested under a face: `platform`, `profile_name`,
`source_url`, `similarity_score`. -/
structure OsintMatch where
  platform : String
  profile_name : String
  source_url : String
  similarity_score : Rat
deriving DecidableEq

/-- Per-face OSINT correlation sub-state: `pending`, `done`, or the
degraded outcome the spec spells `partial_failure` (here `partFailure`). -/
inductive OsintStatus where
  | pending
  | done
  | partFailure
deriving DecidableEq

/-- A detected face: id, estimated attributes, embedding vector, OSINT
matches and the per-face OSINT sub-state. -/
structure Face where
  face_id : String
  attributes : List (String × String)
  embedding : List Rat
  osint_matches : List OsintMatch
  osint_status : OsintStatus
deriving DecidableEq

/-- One frame of the report: `frame_id`, `scene_scores`, `faces`. -/
structure ReportFrame where
  frame_id : Nat
  scene_scores : List (String × Rat)
  faces : List Face
deriving DecidableEq

/-- The report JSON shape consumed by clients (spec §6 stable contract):
`{metadata, ocr_text, frames_analyzed, frames}`. -/
structure Report where
  metadata : List (String × String)
  ocr_text : String
  frames_analyzed : Nat
  frames : List ReportFrame
deriving DecidableEq

/-- The `{stage, message}` pair surfaced for a failed job. -/
structure StageError where
  stage : String
  message : String
deriving DecidableEq

/-- Body of the status endpoint's response as read by the client:
`{status, frames_analyzed, report?, error?}`.  `page.js` reads only
`data.status` and `data.report`. -/
structure StatusResponse where
  status : String
  frames_analyzed : Option Nat
  report : Option Report
  responseError : Option StageError
deriving DecidableEq

/-! ## Client state (`frontend/src/app/page.js`) -/

/-- React state of the `Home` component: `evidenceId`, `analysisStatus`,
`reportData`, `isLoadingStatus` (page.js lines 15-18). -/
structure ClientState where
  evidenceId : Option String
  analysisStatus : Option String
  reportData : Option Report
  isLoadingStatus : Bool
deriving DecidableEq

/-- Initial client state: all `useState` defaults (page.js lines 15-18). -/
def initialState : ClientState :=
  { evidenceId := none, analysisStatus := none, reportData := none,
    isLoadingStatus := false }

/-- `handleUploadSuccess` (page.js lines 63-67): records the evidence id,
sets status to `PENDING` and clears any report. -/
def handleUploadSuccess (s : ClientState) (id : String) : ClientState :=
  { s with evidenceId := some id, analysisStatus := some "PENDING",
           reportData := none }

/-- `fetchStatus` (page.js lines 21-43): on a successful response, store
`data.status`; store `data.report` when the status is `ANALYSIS_COMPLETE`,
clear the report when it is `FAILED`, and otherwise leave the report
untouched.  On a fetch error, set the out-of-band status `ERROR` and clear
the report.  `isLoadingStatus` ends `false` either way. -/
def fetchStatus (s : ClientState) (resp : Except Unit StatusResponse) :
    ClientState :=
  match resp with
  | Except.ok d =>
      let s1 : ClientState :=
        { s with analysisStatus := some d.status, isLoadingStatus := false }
      if d.status = "ANALYSIS_COMPLETE" then { s1 with reportData := d.report }
      else if d.status = "FAILED" then { s1 with reportData := none }
      else s1
  | Except.error _ =>
      { s with analysisStatus := some "ERROR", reportData := none,
               isLoadingStatus := false }

/-- The polling guard of the `useEffect` (page.js line 49): an interval is
(re)started exactly when an evidence id is set and the status is none of
`ANALYSIS_COMPLETE`, `FAILED`, `ERROR`. -/
def pollingActive (s : ClientState) : Bool :=
  s.evidenceId.isSome
    && decide (s.analysisStatus ≠ some "ANALYSIS_COMPLETE")
    && decide (s.analysisStatus ≠ some "FAILED")
    && decide (s.analysisStatus ≠ some "ERROR")

/-- One observable client transition: a status poll, which the effect hook
only schedules while `pollingActive` holds (page.js lines 46-60). -/
inductive ClientStep : ClientState → ClientState → Prop where
  | poll (s : ClientState) (resp : Except Unit StatusResponse) :
      pollingActive s = true → ClientStep s (fetchStatus s resp)

/-- Client states reachable after an upload succeeded, via guarded polls. -/
inductive ClientReachable : ClientState → Prop where
  | upload (s : ClientState) (id : String) :
      ClientReachable (handleUploadSuccess s id)
  | step (s t : ClientState) :
      ClientReachable s → ClientStep s t → ClientReachable t

/-- `StatusIndicator` message (page.js lines 77-99): a switch on
`analysisStatus` producing a fixed message per case; the default case
interpolates the raw status label. -/
def statusMessage (s : ClientState) : String :=
  if s.analysisStatus = some "ANALYSIS_COMPLETE" then
    "Analysis Complete. Report Available."
  else if s.analysisStatus = some "FAILED" ∨ s.analysisStatus = some "ERROR" then
    "Analysis Failed. Check server logs."
  else
    "Status: " ++ (s.analysisStatus.getD "null") ++ "... Polling for updates."

/-! ## Upload form (`frontend/src/components/UploadForm.jsx`) -/

/-- A file selected for upload: name and raw bytes. -/
structure UploadFile where
  name : String
  bytes : List Nat
deriving DecidableEq

/-- The multipart form fields built by `handleUpload`
(UploadForm.jsx lines 36-37): exactly one entry, `formData.append('file', file)`. -/
def uploadFormFields (f : UploadFile) : List (String × UploadFile) :=
  [("file", f)]

/-- Body of the upload endpoint's response as read by the client:
HTTP status code and `evidence_id`. -/
structure UploadResponse where
  httpStatus : Nat
  evidence_id : String
deriving DecidableEq

/-- Effect of `handleUpload`'s response handling on the page state
(UploadForm.jsx lines 46-53 with page.js `handleUploadSuccess`): on a 202
response, `onUploadSuccess(response.data.evidence_id)` fires; anything
else is treated as an error and leaves the page state unchanged. -/
def handleUploadOutcome (s : ClientState) (resp : Except Unit UploadResponse) :
    ClientState :=
  match resp with
  | Except.ok r =>
      if r.httpStatus = 202 then handleUploadSuccess s r.evidence_id else s
  | Except.error _ => s

/-! ## Results viewer (`frontend/src/components/ResultsViewer.jsx`) -/

/-- The hardcoded demo faces of `IdentitySection` (ResultsViewer.jsx
lines 113-127), used whenever the `faces` prop is null. -/
def mockFaces : List Face :=
  [ { face_id := "face-a",
      attributes := [("gender", "Male"), ("age", "35"), ("emotion", "Neutral")],
      embedding := [],
      osint_matches :=
        [ { platform := "Twitter", profile_name := "John Doe",
            source_url := "#", similarity_score := mkRat 92 100 },
          { platform := "Public Web", profile_name := "J. Doe Blog",
            source_url := "#", similarity_score := mkRat 85 100 } ],
      osint_status := OsintStatus.done },
    { face_id := "face-b",
      attributes := [("gender", "Female"), ("age", "28"), ("emotion", "Happy")],
      embedding := [],
      osint_matches := [],
      osint_status := OsintStatus.done } ]

/-- The faces actually rendered by `IdentitySection` (ResultsViewer.jsx
line 113): `faces || [ ...mock... ]` — the mock list when the prop is
null, the prop otherwise. -/
def identityFacesShown (faces : Option (List Face)) : List Face :=
  faces.getD mockFaces

/-- The OSINT matches rendered for one face, in render order
(ResultsViewer.jsx lines 162-175): `face.osint_matches.map(...)` with no
re-ordering. -/
def renderedMatches (fc : Face) : List OsintMatch :=
  fc.osint_matches

/-- A frame as `ResultsViewer` hands it to `SceneSection`:
`scene_analysis.classification_scores` under a `frame_id`. -/
structure ViewerFrame where
  frame_id : Nat
  classification_scores : List (String × Rat)
deriving DecidableEq

/-- The hardcoded demo scene scores (ResultsViewer.jsx lines 74-78 and
198-201). -/
def mockSceneScores : List (String × Rat) :=
  [ ("Urban Street", mkRat 85 100),
    ("Residential Area", mkRat 10 100),
    ("Industrial Complex", mkRat 5 100) ]

/-- Descending-by-score comparison used when the UI sorts scene scores. -/
def scoreDescPair (a b : String × Rat) : Prop := b.2 ≤ a.2

instance : DecidableRel scoreDescPair := fun a b => by
  unfold scoreDescPair; infer_instance

/-- Scene scores rendered by `SceneSection` (ResultsViewer.jsx lines
74-99): take `frames[0].scene_analysis.classification_scores` if present,
else the mock scores, and display them sorted by score descending. -/
def sceneScoresShown (frames : Option (List ViewerFrame)) :
    List (String × Rat) :=
  let scores :=
    match frames with
    | some (f :: _) => f.classification_scores
    | _ => mockSceneScores
  List.insertionSort scoreDescPair scores

/-- Everything the rendered report region displays that depends on data:
header id, frame count line, identity-tab faces, scene-tab scores,
metadata dump and OCR text. -/
structure ViewerOutput where
  header : String
  framesAnalyzed : Nat
  identityFaces : List Face
  sceneScores : List (String × Rat)
  metadataDump : List (String × String)
  ocrText : String
deriving DecidableEq

/-- `ResultsViewer` (ResultsViewer.jsx lines 187-250) as a function of its
two props.  It builds `mockFullReport` passing through the report's
`metadata`, `ocr_text` and `frames_analyzed`, but hands `faces: null` to
`IdentitySection` (so the mock faces render) and a hardcoded mock frame to
`SceneSection` (so the mock scene scores render). -/
def resultsViewer (evidenceId : String) (reportData : Report) : ViewerOutput :=
  { header := "Analysis Report: " ++ evidenceId,
    framesAnalyzed := reportData.frames_analyzed,
    identityFaces := identityFacesShown none,
    sceneScores :=
      sceneScoresShown (some [⟨1, mockSceneScores⟩]),
    metadataDump := reportData.metadata,
    ocrText := reportData.ocr_text }

/-- The report region of `Home` (page.js lines 137-149): the viewer is
rendered exactly when `analysisStatus === 'ANALYSIS_COMPLETE'` and a
report is held; otherwise the waiting placeholder (`none`). -/
def resultsRegion (s : ClientState) : Option ViewerOutput :=
  match s.reportData with
  | some r =>
      if s.analysisStatus = some "ANALYSIS_COMPLETE" then
        some (resultsViewer (s.evidenceId.getD "") r)
      else none
  | none => none

/-! ## Backend model

The backend (Flask API, Job Registry, Pipeline Orchestrator, OSINT
fan-out) is copied into the Docker image from `backend/`, `database/` and
`osint/` directories that are not under `src/`; every definition below is
therefore modelled from the specification. -/

/-- Modelled from the spec: the job state machine values (spec §4.2);
the backend implementing them is absent from `src/`. -/
inductive JobStatus where
  | PENDING
  | METADATA_EXTRACTED
  | FRAMES_EXTRACTED
  | CONTENT_ANALYZED
  | ANALYSIS_COMPLETE
  | FAILED
deriving DecidableEq

/-- Modelled from the spec: position of a status in the defined forward
order (spec §4.2); `FAILED` sits outside the forward chain and is given
the top rank so that every transition strictly increases rank. -/
def statusRank : JobStatus → Nat
  | JobStatus.PENDING => 0
  | JobStatus.METADATA_EXTRACTED => 1
  | JobStatus.FRAMES_EXTRACTED => 2
  | JobStatus.CONTENT_ANALYZED => 3
  | JobStatus.ANALYSIS_COMPLETE => 4
  | JobStatus.FAILED => 5

/-- Modelled from the spec: `ANALYSIS_COMPLETE` and `FAILED` are the two
terminal states (spec §4.2). -/
def isTerminal : JobStatus → Bool
  | JobStatus.ANALYSIS_COMPLETE => true
  | JobStatus.FAILED => true
  | _ => false

/-- Modelled from the spec: the next status in the defined forward order
(spec §4.2); terminal states map to themselves (never used under the
registry's terminal guard). -/
def nextStatus : JobStatus → JobStatus
  | JobStatus.PENDING => JobStatus.METADATA_EXTRACTED
  | JobStatus.METADATA_EXTRACTED => JobStatus.FRAMES_EXTRACTED
  | JobStatus.FRAMES_EXTRACTED => JobStatus.CONTENT_ANALYZED
  | JobStatus.CONTENT_ANALYZED => JobStatus.ANALYSIS_COMPLETE
  | s => s

/-- The wire label of each status value, as polled by the client. -/
def statusString : JobStatus → String
  | JobStatus.PENDING => "PENDING"
  | JobStatus.METADATA_EXTRACTED => "METADATA_EXTRACTED"
  | JobStatus.FRAMES_EXTRACTED => "FRAMES_EXTRACTED"
  | JobStatus.CONTENT_ANALYZED => "CONTENT_ANALYZED"
  | JobStatus.ANALYSIS_COMPLETE => "ANALYSIS_COMPLETE"
  | JobStatus.FAILED => "FAILED"

/-- Modelled from the spec: the Job Record (spec §3) — one per evidence,
holding status, per-stage outputs (metadata object and per-frame OCR
text), the frames with their faces, and the `{stage, message}` error
present only for failed jobs.  The record store itself is absent from
`src/`. -/
structure JobRecord where
  evidence_id : String
  status : JobStatus
  metadata : List (String × String)
  frame_ocr : List String
  frames : List ReportFrame
  jobError : Option StageError
deriving DecidableEq

/-- Modelled from the spec: the mutable-field part of a
`compare_and_advance` mutation (spec §4.1): optional replacement values
for the stage outputs and frames. -/
structure JobMutation where
  newMetadata : Option (List (String × String))
  newFrameOcr : Option (List String)
  newFrames : Option (List ReportFrame)
deriving DecidableEq

/-- Modelled from the spec: applying a mutation to the record's mutable
fields (spec §4.1). -/
def applyMutation (rec : JobRecord) (m : JobMutation) : JobRecord :=
  { rec with metadata := m.newMetadata.getD rec.metadata,
             frame_ocr := m.newFrameOcr.getD rec.frame_ocr,
             frames := m.newFrames.getD rec.frames }

/-- Registry error kinds relevant to the write primitive (spec §7). -/
inductive RegistryError where
  | staleWrite
deriving DecidableEq

/-- Modelled from the spec: the Job Registry's single atomic write
primitive `compare_and_advance` (spec §4.1, §5): it applies the mutation
and advances the status — to `FAILED` carrying `{stage, message}` when a
failure is being recorded, to the next value in the forward order
otherwise — iff the current status equals `expected`; a terminal record
accepts no writes at all ("once terminal, no further writes", spec §3;
"the record no longer accepts writes for that job once terminal",
spec §5). -/
def compare_and_advance (rec : JobRecord) (expected : JobStatus)
    (m : JobMutation) (failure : Option StageError) :
    Except RegistryError JobRecord :=
  if isTerminal rec.status then Except.error RegistryError.staleWrite
  else if rec.status = expected then
    match failure with
    | some e =>
        Except.ok { applyMutation rec m with
                    status := JobStatus.FAILED
                    jobError := some e }
    | none =>
        Except.ok { applyMutation rec m with status := nextStatus rec.status }
  else Except.error RegistryError.staleWrite

/-- One successful registry write: some `compare_and_advance` call
produced the new record. -/
def JobStep (rec rec' : JobRecord) : Prop :=
  ∃ expected m failure,
    compare_and_advance rec expected m failure = Except.ok rec'

/-- Descending order on OSINT matches by `similarity_score`. -/
def matchDesc (a b : OsintMatch) : Prop :=
  b.similarity_score ≤ a.similarity_score

instance : DecidableRel matchDesc := fun a b => by
  unfold matchDesc; infer_instance

instance : IsTotal OsintMatch matchDesc :=
  ⟨fun a b => le_total b.similarity_score a.similarity_score⟩

instance : IsTrans OsintMatch matchDesc :=
  ⟨fun _ _ _ hab hbc => le_trans hbc hab⟩

/-- Modelled from the spec: Report Projection (spec §4.4) — the pure
read-side function from a Job Record to the report shape of §6: top-level
metadata, per-frame OCR concatenated in frame order, frame count, and the
frames with each face's `osint_matches` sorted by score descending. -/
def projectReport (rec : JobRecord) : Report :=
  { metadata := rec.metadata,
    ocr_text := String.join rec.frame_ocr,
    frames_analyzed := rec.frames.length,
    frames := rec.frames.map fun fr =>
      { fr with faces := fr.faces.map fun fc =>
          { fc with osint_matches :=
              List.insertionSort matchDesc fc.osint_matches } } }

/-- Modelled from the spec: the status endpoint
`GET status(evidence_id) -> {status, frames_analyzed, report?}` (spec §6):
`report` present only when the status is `ANALYSIS_COMPLETE`; a `FAILED`
record additionally surfaces its coarse `{stage, message}` pair and
nothing else. -/
def statusEndpoint (rec : JobRecord) : StatusResponse :=
  { status := statusString rec.status,
    frames_analyzed := some rec.frames.length,
    report :=
      if rec.status = JobStatus.ANALYSIS_COMPLETE then some (projectReport rec)
      else none,
    responseError :=
      if rec.status = JobStatus.FAILED then rec.jobError else none }

/-! ## OSINT fan-out (spec §4.2, §5) -/

/-- Modelled from the spec: one face's OSINT correlation unit with its
bounded retry budget (spec §5): the list holds the outcome of each
successive lookup attempt (the budget bounds its length; backoff timing is
not modelled).  The first success yields `done` with its matches;
exhausting all attempts yields the degraded `partial_failure` outcome with
an empty match list — never a job failure. -/
def runFaceOsint :
    List (Except Unit (List OsintMatch)) → OsintStatus × List OsintMatch
  | [] => (OsintStatus.partFailure, [])
  | Except.ok ms :: _ => (OsintStatus.done, ms)
  | Except.error _ :: rest => runFaceOsint rest

/-- Modelled from the spec: the second fan-in barrier (spec §4.2): once
every face's correlation unit has reached `done` or `partial_failure`, the
job advances to `ANALYSIS_COMPLETE`.  `attempts` gives each face's lookup
attempt outcomes, keyed by `face_id`. -/
def osintPhase (rec : JobRecord)
    (attempts : String → List (Except Unit (List OsintMatch))) : JobRecord :=
  { rec with
    status := JobStatus.ANALYSIS_COMPLETE,
    frames := rec.frames.map fun fr =>
      { fr with faces := fr.faces.map fun fc =>
          let r := runFaceOsint (attempts fc.face_id)
          { fc with osint_status := r.1, osint_matches := r.2 } } }

/-- Every attempt in the list failed (the retry budget was exhausted). -/
def allAttemptsFailed (l : List (Except Unit (List OsintMatch))) : Prop :=
  ∀ a ∈ l, a.isOk = false

instance (l : List (Except Unit (List OsintMatch))) :
    Decidable (allAttemptsFailed l) := by
  unfold allAttemptsFailed; infer_instance

/-! ## Concrete records used to instantiate the theorems -/

/-- A fresh `PENDING` record, as created at upload. -/
def c1Rec : JobRecord :=
  { evidence_id := "ev1", status := JobStatus.PENDING, metadata := [],
    frame_ocr := [], frames := [], jobError := none }

/-- The identity mutation (no mutable field replaced). -/
def c1Mut : JobMutation :=
  { newMetadata := none, newFrameOcr := none, newFrames := none }

/-- A record at the `CONTENT_ANALYZED` barrier with one detected face
awaiting OSINT correlation. -/
def c3Rec : JobRecord :=
  { evidence_id := "ev3", status := JobStatus.CONTENT_ANALYZED,
    metadata := [], frame_ocr := ["t"],
    frames := [ { frame_id := 0, scene_scores := [],
                  faces := [ { face_id := "f0", attributes := [],
                               embedding := [], osint_matches := [],
                               osint_status := OsintStatus.pending } ] } ],
    jobError := none }

/-- An OSINT Query Provider whose every attempt errors: the full retry
budget of three attempts is exhausted for each face. -/
def c3Attempts : String → List (Except Unit (List OsintMatch)) :=
  fun _ => [Except.error (), Except.error (), Except.error ()]

/-- The face of `c3Rec` after its retry budget is exhausted. -/
def c3PostFace : Face :=
  { face_id := "f0", attributes := [], embedding := [], osint_matches := [],
    osint_status := OsintStatus.partFailure }

/-- The frame of `c3Rec` after the OSINT phase. -/
def c3PostFrame : ReportFrame :=
  { frame_id := 0, scene_scores := [], faces := [c3PostFace] }

/-- A completed record whose single face carries two OSINT matches stored
in ascending score order (0.50 before 0.90). -/
def c4Rec : JobRecord :=
  { evidence_id := "ev4", status := JobStatus.ANALYSIS_COMPLETE,
    metadata := [], frame_ocr := [],
    frames := [ { frame_id := 0, scene_scores := [],
                  faces := [ { face_id := "f0", attributes := [],
                               embedding := [],
                               osint_matches :=
                                 [ { platform := "X", profile_name := "x",
                                     source_url := "u",
                                     similarity_score := mkRat 50 100 },
                                   { platform := "Y", profile_name := "y",
                                     source_url := "v",
                                     similarity_score := mkRat 90 100 } ],
                               osint_status := OsintStatus.done } ] } ],
    jobError := none }

/-- The face of `c4Rec` as the projection surfaces it: matches sorted by
score descending (0.90 before 0.50). -/
def c4PostFace : Face :=
  { face_id := "f0", attributes := [], embedding := [],
    osint_matches :=
      [ { platform := "Y", profile_name := "y", source_url := "v",
          similarity_score := mkRat 90 100 },
        { platform := "X", profile_name := "x", source_url := "u",
          similarity_score := mkRat 50 100 } ],
    osint_status := OsintStatus.done }

/-- The frame of `c4Rec` as the projection surfaces it. -/
def c4PostFrame : ReportFrame :=
  { frame_id := 0, scene_scores := [], faces := [c4PostFace] }

/-- A completed report whose only frame holds one face ("face-x", no
matches) and one scene score — visibly different from the viewer's mock
data. -/
def c6Report : Report :=
  { metadata := [("Make", "Canon")],
    ocr_text := "STREET SIGN",
    frames_analyzed := 1,
    frames := [ { frame_id := 0,
                  scene_scores := [("Forest", mkRat 99 100)],
                  faces := [ { face_id := "face-x", attributes := [],
                               embedding := [], osint_matches := [],
                               osint_status := OsintStatus.done } ] } ] }

/-- A failed record carrying its coarse `{stage, message}` pair. -/
def c9Rec : JobRecord :=
  { evidence_id := "ev9f", status := JobStatus.FAILED, metadata := [],
    frame_ocr := [], frames := [],
    jobError := some { stage := "metadata", message := "provider failed" } }

/-! ## Theorems -/

/-- Exhausting every attempt of the retry budget yields the degraded
outcome with an empty match list. -/
theorem runFaceOsint_of_allFailed
    (l : List (Except Unit (List OsintMatch))) (h : allAttemptsFailed l) :
    runFaceOsint l = (OsintStatus.partFailure, []) := by
  induction l with
  | nil => rfl
  | cons a rest ih =>
    cases a with
    | ok ms =>
      have hx := h _ (List.mem_cons_self _ _)
      simp [Except.isOk, Except.toBool] at hx
    | error e =>
      exact ih fun x hx => h x (List.mem_cons_of_mem _ hx)

/-- C1: a registry write (`compare_and_advance`) only ever moves the
status forward to the next value of the defined total order or to
`FAILED`, strictly increasing its rank and never from a terminal state; a
terminal record admits no write at all, so any evolution from a terminal
record leaves it — and hence the polled status response — identical. -/
theorem job_status_monotone_and_frozen :
    (∀ rec rec' : JobRecord, JobStep rec rec' →
        isTerminal rec.status = false ∧
        (rec'.status = JobStatus.FAILED ∨
          rec'.status = nextStatus rec.status) ∧
        statusRank rec.status < statusRank rec'.status) ∧
    (∀ rec rec' : JobRecord,
        isTerminal rec.status = true → ¬ JobStep rec rec') ∧
    (∀ rec rec' : JobRecord, isTerminal rec.status = true →
        Relation.ReflTransGen JobStep rec rec' →
        rec' = rec ∧ statusEndpoint rec' = statusEndpoint rec) := by
  have hfrozen : ∀ rec rec' : JobRecord,
      isTerminal rec.status = true → ¬ JobStep rec rec' := by
    intro rec rec' ht hstep
    obtain ⟨e, m, f, h⟩ := hstep
    simp [compare_and_advance, ht] at h
  refine ⟨?_, hfrozen, ?_⟩
  · intro rec rec' hstep
    obtain ⟨e, m, f, h⟩ := hstep
    by_cases ht : isTerminal rec.status = true
    · simp [compare_and_advance, ht] at h
    · have ht' : isTerminal rec.status = false := by
        cases hh : isTerminal rec.status
        · rfl
        · exact absurd hh ht
      refine ⟨ht', ?_⟩
      by_cases he : rec.status = e
      · subst he
        cases f with
        | some err =>
          simp only [compare_and_advance, ht', Bool.false_eq_true,
            if_false, if_pos, Except.ok.injEq] at h
          subst h
          refine ⟨Or.inl rfl, ?_⟩
          cases hs : rec.status <;>
            simp_all [isTerminal, statusRank, applyMutation]
        | none =>
          simp only [compare_and_advance, ht', Bool.false_eq_true,
            if_false, if_pos, Except.ok.injEq] at h
          subst h
          refine ⟨Or.inr rfl, ?_⟩
          cases hs : rec.status <;>
            simp_all [isTerminal, statusRank, nextStatus, applyMutation]
      · simp [compare_and_advance, ht', he] at h
  · intro rec rec' ht h
    have heq : rec' = rec := by
      induction h with
      | refl => rfl
      | tail hab hbc ih =>
        rw [ih] at hbc
        exact absurd hbc (hfrozen _ _ ht)
    exact ⟨heq, by rw [heq]⟩

/-- Witness for C1: advancing a fresh `PENDING` record is a real step and
the theorem yields its forward, rank-increasing transition. -/
theorem job_status_monotone_and_frozen_witness :
    isTerminal c1Rec.status = false ∧
    (({ c1Rec with status := JobStatus.METADATA_EXTRACTED } : JobRecord).status =
        JobStatus.FAILED ∨
      ({ c1Rec with status := JobStatus.METADATA_EXTRACTED } : JobRecord).status =
        nextStatus c1Rec.status) ∧
    statusRank c1Rec.status <
      statusRank ({ c1Rec with
        status := JobStatus.METADATA_EXTRACTED } : JobRecord).status :=
  job_status_monotone_and_frozen.1 c1Rec
    { c1Rec with status := JobStatus.METADATA_EXTRACTED }
    ⟨JobStatus.PENDING, c1Mut, none, rfl⟩

/-- C2: the status endpoint's `report` field is present iff the record's
status is `ANALYSIS_COMPLETE`; every reachable client state holds report
data only under status `ANALYSIS_COMPLETE`; the report region renders
only under that status; and a `FAILED` poll clears any held report. -/
theorem report_present_iff_complete :
    (∀ rec : JobRecord,
        ((statusEndpoint rec).report).isSome = true ↔
          rec.status = JobStatus.ANALYSIS_COMPLETE) ∧
    (∀ s : ClientState, ClientReachable s →
        s.reportData ≠ none → s.analysisStatus = some "ANALYSIS_COMPLETE") ∧
    (∀ s : ClientState, (resultsRegion s).isSome = true →
        s.analysisStatus = some "ANALYSIS_COMPLETE") ∧
    (∀ (s : ClientState) (d : StatusResponse), d.status = "FAILED" →
        (fetchStatus s (Except.ok d)).reportData = none) := by
  refine ⟨?_, ?_, ?_, ?_⟩
  · intro rec
    by_cases h : rec.status = JobStatus.ANALYSIS_COMPLETE <;>
      simp [statusEndpoint, h]
  · intro s hreach
    induction hreach with
    | upload s id =>
      intro h
      simp [handleUploadSuccess] at h
    | step s t hs hstep ih =>
      cases hstep with
      | poll resp hguard =>
        intro hne
        have hsnone : s.reportData = none := by
          by_contra hne2
          have hc := ih hne2
          simp only [pollingActive, Bool.and_eq_true, decide_eq_true_eq] at hguard
          exact hguard.1.1.2 hc
        cases resp with
        | error e => simp [fetchStatus] at hne
        | ok d =>
          by_cases h1 : d.status = "ANALYSIS_COMPLETE"
          · simp [fetchStatus, h1]
          · by_cases h2 : d.status = "FAILED"
            · simp [fetchStatus, h1, h2] at hne
            · simp [fetchStatus, h1, h2, hsnone] at hne
  · intro s h
    unfold resultsRegion at h
    cases hr : s.reportData with
    | none => rw [hr] at h; simp at h
    | some r =>
      rw [hr] at h
      by_cases hc : s.analysisStatus = some "ANALYSIS_COMPLETE"
      · exact hc
      · simp [hc] at h
  · intro s d h
    simp [fetchStatus, h]

/-- Witness for C2: after a successful upload and one completing poll,
the client holds a report and the theorem certifies its status is
`ANALYSIS_COMPLETE`. -/
theorem report_present_iff_complete_witness :
    (fetchStatus (handleUploadSuccess initialState "ev1")
        (Except.ok { status := "ANALYSIS_COMPLETE", frames_analyzed := some 1,
                     report := some { metadata := [], ocr_text := "",
                                      frames_analyzed := 1, frames := [] },
                     responseError := none })).reportData ≠ none ∧
    (fetchStatus (handleUploadSuccess initialState "ev1")
        (Except.ok { status := "ANALYSIS_COMPLETE", frames_analyzed := some 1,
                     report := some { metadata := [], ocr_text := "",
                                      frames_analyzed := 1, frames := [] },
                     responseError := none })).analysisStatus =
      some "ANALYSIS_COMPLETE" := by
  refine ⟨by decide, ?_⟩
  exact report_present_iff_complete.2.1 _
    (ClientReachable.step _ _ (ClientReachable.upload initialState "ev1")
      (ClientStep.poll _ _ (by decide)))
    (by decide)

/-- C3: a face whose OSINT lookup attempts are all errors (retry budget
exhausted) does not fail the job: the OSINT phase still reaches
`ANALYSIS_COMPLETE`, and that face ends with
`osint_status = partial_failure` and an empty `osint_matches` list. -/
theorem osint_exhaustion_never_fails_job :
    ∀ (rec : JobRecord)
      (attempts : String → List (Except Unit (List OsintMatch))),
      rec.status = JobStatus.CONTENT_ANALYZED →
      (osintPhase rec attempts).status = JobStatus.ANALYSIS_COMPLETE ∧
      ∀ fr ∈ (osintPhase rec attempts).frames, ∀ fc ∈ fr.faces,
        allAttemptsFailed (attempts fc.face_id) →
        fc.osint_status = OsintStatus.partFailure ∧ fc.osint_matches = [] := by
  intro rec attempts _
  refine ⟨rfl, ?_⟩
  intro fr hfr fc hfc hfail
  simp only [osintPhase, List.mem_map] at hfr
  obtain ⟨fr0, _, rfl⟩ := hfr
  simp only [List.mem_map] at hfc
  obtain ⟨fc0, _, rfl⟩ := hfc
  simp only at hfail
  have hrun := runFaceOsint_of_allFailed (attempts fc0.face_id) hfail
  simp [hrun]

/-- Witness for C3: a one-face job whose three OSINT attempts all error
completes with that face degraded to `partial_failure` and no matches. -/
theorem osint_exhaustion_never_fails_job_witness :
    (osintPhase c3Rec c3Attempts).status = JobStatus.ANALYSIS_COMPLETE ∧
    c3PostFace.osint_status = OsintStatus.partFailure ∧
    c3PostFace.osint_matches = [] := by
  have h := osint_exhaustion_never_fails_job c3Rec c3Attempts (by decide)
  exact ⟨h.1, h.2 c3PostFrame (by decide) c3PostFace (by decide) (by decide)⟩

/-- C4: every face of a projected report carries its rendered OSINT
matches sorted by `similarity_score` descending, and the faces the
identity section actually renders (the mock fallback) are sorted the same
way. -/
theorem osint_matches_surfaced_sorted_desc :
    (∀ rec : JobRecord, ∀ fr ∈ (projectReport rec).frames, ∀ fc ∈ fr.faces,
        List.Sorted matchDesc (renderedMatches fc)) ∧
    (∀ fc ∈ identityFacesShown none,
        List.Sorted matchDesc (renderedMatches fc)) := by
  constructor
  · intro rec fr hfr fc hfc
    simp only [projectReport, List.mem_map] at hfr
    obtain ⟨fr0, _, rfl⟩ := hfr
    simp only [List.mem_map] at hfc
    obtain ⟨fc0, _, rfl⟩ := hfc
    simpa [renderedMatches] using
      List.sorted_insertionSort matchDesc fc0.osint_matches
  · decide

/-- Witness for C4: projecting a record stored with ascending scores
surfaces the face with its matches sorted descending. -/
theorem osint_matches_surfaced_sorted_desc_witness :
    List.Sorted matchDesc (renderedMatches c4PostFace) :=
  osint_matches_surfaced_sorted_desc.1 c4Rec c4PostFrame (by decide)
    c4PostFace (by decide)

/-- C5: the rendered report region is a deterministic function of the
evidence id, status and report record alone — two client states agreeing
on those three render byte-identically, regardless of any other client
state. -/
theorem results_projection_deterministic :
    ∀ s1 s2 : ClientState,
      s1.evidenceId = s2.evidenceId →
      s1.analysisStatus = s2.analysisStatus →
      s1.reportData = s2.reportData →
      resultsRegion s1 = resultsRegion s2 := by
  intro s1 s2 h1 h2 h3
  obtain ⟨e1, a1, r1, l1⟩ := s1
  obtain ⟨e2, a2, r2, l2⟩ := s2
  simp only at h1 h2 h3
  subst h1; subst h2; subst h3
  cases r1 <;> rfl

/-- Witness for C5: two states with the same terminal record but
different loading flags render the same region. -/
theorem results_projection_deterministic_witness :
    resultsRegion { evidenceId := some "ev5",
                    analysisStatus := some "ANALYSIS_COMPLETE",
                    reportData := some { metadata := [], ocr_text := "t",
                                         frames_analyzed := 1, frames := [] },
                    isLoadingStatus := false } =
    resultsRegion { evidenceId := some "ev5",
                    analysisStatus := some "ANALYSIS_COMPLETE",
                    reportData := some { metadata := [], ocr_text := "t",
                                         frames_analyzed := 1, frames := [] },
                    isLoadingStatus := true } :=
  results_projection_deterministic _ _ rfl rfl rfl

/-- C6: on a completed report the viewer passes the report's metadata,
OCR text and frame count through, but renders the hardcoded mock faces
and mock scene scores instead of the report's own faces and scene
scores. -/
theorem viewer_substitutes_mock_for_report_data :
    (resultsViewer "ev-c6" c6Report).identityFaces = mockFaces ∧
    ((resultsViewer "ev-c6" c6Report).identityFaces ==
        (c6Report.frames.map ReportFrame.faces).flatten) = false ∧
    ((resultsViewer "ev-c6" c6Report).sceneScores ==
        (c6Report.frames.map ReportFrame.scene_scores).flatten) = false ∧
    (resultsViewer "ev-c6" c6Report).metadataDump = c6Report.metadata ∧
    (resultsViewer "ev-c6" c6Report).ocrText = c6Report.ocr_text := by
  decide

/-- C7 counterexample: the upload form data for a concrete file carries
exactly one field, `file` — no `media_kind` field is submitted. -/
theorem upload_has_no_media_kind_field :
    (uploadFormFields { name := "clip.mp4", bytes := [0, 1] }).map Prod.fst =
      ["file"] ∧
    ((uploadFormFields { name := "clip.mp4", bytes := [0, 1] }).map
        Prod.fst).contains "media_kind" = false := by
  decide

/-- C7 (amended): every upload request submits only the file field; on an
HTTP 202 response the client records the returned `evidence_id`, sets
status `PENDING`, holds no report, and polling is active. -/
theorem upload_records_id_and_polls_pending :
    (∀ f : UploadFile, (uploadFormFields f).map Prod.fst = ["file"]) ∧
    (∀ (s : ClientState) (r : UploadResponse), r.httpStatus = 202 →
        (handleUploadOutcome s (Except.ok r)).evidenceId = some r.evidence_id ∧
        (handleUploadOutcome s (Except.ok r)).analysisStatus = some "PENDING" ∧
        (handleUploadOutcome s (Except.ok r)).reportData = none ∧
        pollingActive (handleUploadOutcome s (Except.ok r)) = true) := by
  constructor
  · intro f; rfl
  · intro s r h
    simp [handleUploadOutcome, h, handleUploadSuccess, pollingActive]

/-- Witness for C7: a concrete 202 upload response is recorded and starts
polling in `PENDING`. -/
theorem upload_records_id_and_polls_pending_witness :
    (handleUploadOutcome initialState
        (Except.ok { httpStatus := 202, evidence_id := "ev9" })).evidenceId =
      some "ev9" ∧
    (handleUploadOutcome initialState
        (Except.ok { httpStatus := 202, evidence_id := "ev9" })).analysisStatus =
      some "PENDING" ∧
    (handleUploadOutcome initialState
        (Except.ok { httpStatus := 202, evidence_id := "ev9" })).reportData =
      none ∧
    pollingActive (handleUploadOutcome initialState
        (Except.ok { httpStatus := 202, evidence_id := "ev9" })) = true :=
  upload_records_id_and_polls_pending.2 initialState
    { httpStatus := 202, evidence_id := "ev9" } (by decide)

/-- C8: the polling guard rules out both terminal statuses, so once the
observed status is `ANALYSIS_COMPLETE` or `FAILED` no further poll step
exists. -/
theorem polling_stops_at_terminal :
    (∀ s : ClientState, pollingActive s = true →
        s.analysisStatus ≠ some "ANALYSIS_COMPLETE" ∧
        s.analysisStatus ≠ some "FAILED") ∧
    (∀ s t : ClientState,
        s.analysisStatus = some "ANALYSIS_COMPLETE" ∨
        s.analysisStatus = some "FAILED" →
        ¬ ClientStep s t) := by
  constructor
  · intro s h
    simp only [pollingActive, Bool.and_eq_true, decide_eq_true_eq] at h
    exact ⟨h.1.1.2, h.1.2⟩
  · intro s t hterm hstep
    cases hstep with
    | poll resp hguard =>
      simp only [pollingActive, Bool.and_eq_true, decide_eq_true_eq] at hguard
      rcases hterm with h | h
      · exact hguard.1.1.2 h
      · exact hguard.1.2 h

/-- Witness for C8: polling is active right after upload, and the theorem
certifies the status is then not terminal. -/
theorem polling_stops_at_terminal_witness :
    pollingActive (handleUploadSuccess initialState "ev1") = true ∧
    (handleUploadSuccess initialState "ev1").analysisStatus ≠
      some "ANALYSIS_COMPLETE" :=
  ⟨by decide, (polling_stops_at_terminal.1 _ (by decide)).1⟩

/-- C9: a failed record's status response carries no report and exactly
its coarse `{stage, message}` pair, and the client's failure banner is a
fixed message independent of anything in the response body. -/
theorem failed_job_surfaces_only_coarse_error :
    (∀ rec : JobRecord, rec.status = JobStatus.FAILED →
        (statusEndpoint rec).report = none ∧
        (statusEndpoint rec).responseError = rec.jobError ∧
        (statusEndpoint rec).status = "FAILED") ∧
    (∀ (s : ClientState) (d : StatusResponse), d.status = "FAILED" →
        statusMessage (fetchStatus s (Except.ok d)) =
          "Analysis Failed. Check server logs.") := by
  constructor
  · intro rec h
    refine ⟨?_, ?_, ?_⟩ <;> simp [statusEndpoint, h, statusString]
  · intro s d h
    simp [fetchStatus, h, statusMessage]

/-- Witness for C9: a concrete failed record surfaces no report and only
its `{stage, message}` pair. -/
theorem failed_job_surfaces_only_coarse_error_witness :
    (statusEndpoint c9Rec).report = none ∧
    (statusEndpoint c9Rec).responseError = c9Rec.jobError ∧
    (statusEndpoint c9Rec).status = "FAILED" :=
  failed_job_surfaces_only_coarse_error.1 c9Rec (by decide)

/-- C10: a failed status fetch sets the local status to the out-of-band
`ERROR` and discards the report; the polling guard holds exactly when the
status is none of `ANALYSIS_COMPLETE`, `FAILED`, `ERROR` (with an
evidence id set); and no poll step exists from the resulting `ERROR`
state. -/
theorem fetch_error_terminalizes :
    (∀ (s : ClientState) (e : Unit),
        (fetchStatus s (Except.error e)).analysisStatus = some "ERROR" ∧
        (fetchStatus s (Except.error e)).reportData = none) ∧
    (∀ s : ClientState, pollingActive s = true ↔
        s.evidenceId.isSome = true ∧
        s.analysisStatus ≠ some "ANALYSIS_COMPLETE" ∧
        s.analysisStatus ≠ some "FAILED" ∧
        s.analysisStatus ≠ some "ERROR") ∧
    (∀ (s : ClientState) (e : Unit) (t : ClientState),
        ¬ ClientStep (fetchStatus s (Except.error e)) t) := by
  refine ⟨?_, ?_, ?_⟩
  · intro s e
    exact ⟨rfl, rfl⟩
  · intro s
    simp only [pollingActive, Bool.and_eq_true, decide_eq_true_eq]
    tauto
  · intro s e t hstep
    cases hstep with
    | poll resp hguard =>
      simp only [fetchStatus, pollingActive, Bool.and_eq_true,
        decide_eq_true_eq] at hguard
      exact hguard.2 rfl

/-- Witness for C10: a concrete failed fetch lands in `ERROR` with no
report. -/
theorem fetch_error_terminalizes_witness :
    (fetchStatus initialState (Except.error ())).analysisStatus =
      some "ERROR" ∧
    (fetchStatus initialState (Except.error ())).reportData = none :=
  fetch_error_terminalizes.1 initialState ()

end TraceVault
